import Mathlib

/-!
Shallow embedding of the orbox game core (src/orbox/orbox.ts): the vector and
position arithmetic, the boundary-clamped movement of game objects, the keydown
movement dispatch, and the module-level reassignment of the move method of the
player.  Numbers are modelled as integers (every quantity in the program is an
integer multiple of the unit constant); mutation of `this` is modelled by
returning the updated value.
-/

namespace Orbox

/-- The Vector class: a 2D pair of numeric components. -/
structure Vector where
  x : Int
  y : Int
deriving DecidableEq, Repr

/-- Vector.new: alias for the constructor. -/
def Vector.new (x y : Int) : Vector :=
  ⟨x, y⟩

/-- Vector.origin: the static getter returning a fresh (0, 0) vector. -/
def Vector.origin : Vector :=
  ⟨0, 0⟩

/-- Vector.add: starts from Vector.origin and accumulates each argument
component-wise (the forEach loop mutating resultantVector). -/
def Vector.add (vectors : List Vector) : Vector :=
  vectors.foldl (fun resultantVector vector =>
    ⟨resultantVector.x + vector.x, resultantVector.y + vector.y⟩) Vector.origin

/-- Vector.plus: the non-static version; the receiver becomes the sum of a copy
of itself and the arguments.  The method mutates the receiver; we return the
new value of the receiver. -/
def Vector.plus (self : Vector) (vectors : List Vector) : Vector :=
  Vector.add (Vector.new self.x self.y :: vectors)

/-- Position is a Vector with directional move methods. -/
abbrev Position := Vector

/-- Position.move: this.plus(vector). -/
def Position.move (self : Position) (vector : Vector) : Position :=
  Vector.plus self [vector]

/-- Position.moveX: move only in the x direction. -/
def Position.moveX (self : Position) (x : Int) : Position :=
  Position.move self ⟨x, 0⟩

/-- Position.moveY: move only in the y direction. -/
def Position.moveY (self : Position) (y : Int) : Position :=
  Position.move self ⟨0, y⟩

/-- Position.moveLeft: moveX(-units). -/
def Position.moveLeft (self : Position) (units : Int) : Position :=
  Position.moveX self (-units)

/-- Position.moveUp: moveY(-units). -/
def Position.moveUp (self : Position) (units : Int) : Position :=
  Position.moveY self (-units)

/-- Position.moveDown: moveY(units). -/
def Position.moveDown (self : Position) (units : Int) : Position :=
  Position.moveY self units

/-- Position.moveRight: moveX(units). -/
def Position.moveRight (self : Position) (units : Int) : Position :=
  Position.moveX self units

/-- The game canvas, an external DOM object supplying the world dimensions. -/
structure Canvas where
  width : Int
  height : Int
deriving DecidableEq, Repr

/-- The constant for game units to pixels conversion. -/
def units : Int := 20

/-- GameObject.move: applies the vector to this.pos via Position.move, then
clamps each coordinate with an if / else-if chain against 0 and
canvas dimension minus units.  The method mutates this.pos; we return the new
value of this.pos. -/
def GameObject.move (canvas : Canvas) (pos : Position) (vector : Vector) : Position :=
  let p := Position.move pos vector
  let px := if p.x < 0 then 0
    else if p.x > canvas.width - units then canvas.width - units
    else p.x
  let py := if p.y < 0 then 0
    else if p.y > canvas.height - units then canvas.height - units
    else p.y
  ⟨px, py⟩

/-- Rectangle: a GameObject with a width and a height (its render callback is
out of scope). -/
structure Rectangle where
  pos : Position
  width : Int
  height : Int
deriving DecidableEq, Repr

/-- The background rectangle: position (0, 0), sized to the whole canvas. -/
def background (canvas : Canvas) : Rectangle :=
  ⟨⟨0, 0⟩, canvas.width, canvas.height⟩

/-- The player box: position (5 * units, 6 * units), size units by units. -/
def player : Rectangle :=
  ⟨⟨5 * units, 6 * units⟩, units, units⟩

/-- Module initialization: the script reads the canvas dimensions from the DOM
and defines the constants; no code path inspects them or raises a
configuration error, so initialization succeeds for any dimensions. -/
def moduleInit (canvasWidth canvasHeight : Int) : Except String (Int × Int × Int) :=
  Except.ok (canvasWidth, canvasHeight, units)

/-- The arrow function assigned to player.move at the end of the module:
its body is a single if statement with an empty body.  Its
`this` is the enclosing module scope, not the player, so evaluating this.pos.x
throws a TypeError when that `this` is undefined; if some object were captured,
the condition would be evaluated and then nothing would happen.  In every case
the position of the player is never written. -/
def playerMoveOverride (moduleThis : Option Rectangle) (pos : Position)
    (vector : Vector) : Except String Position :=
  match moduleThis with
  | none => Except.error "TypeError"
  | some self =>
    if self.pos.x > 0 ∧ vector.x < 0 then Except.ok pos else Except.ok pos

/-- The keydown listener: switches on event.key and moves the player by units
in the matching direction via the current move method of the player; any other key
matches no case and nothing happens.  The move method in effect is a
parameter, since the module reassigns player.move after the class definition. -/
def keydownHandler (move : Position → Vector → Position) (key : String)
    (pos : Position) : Position :=
  if key = "ArrowLeft" then move pos (Vector.new (-units) 0)
  else if key = "ArrowUp" then move pos (Vector.new 0 (-units))
  else if key = "ArrowDown" then move pos (Vector.new 0 units)
  else if key = "ArrowRight" then move pos (Vector.new units 0)
  else pos

/-- Helper: whenever the canvas is at least units wide and tall, the clamp in
GameObject.move lands both coordinates in [0, dimension - units]. -/
lemma move_bounds (canvas : Canvas) (pos : Position) (vector : Vector)
    (hw : units ≤ canvas.width) (hh : units ≤ canvas.height) :
    0 ≤ (GameObject.move canvas pos vector).x ∧
      (GameObject.move canvas pos vector).x ≤ canvas.width - units ∧
      0 ≤ (GameObject.move canvas pos vector).y ∧
      (GameObject.move canvas pos vector).y ≤ canvas.height - units := by
  simp only [GameObject.move, Position.move, Vector.plus, Vector.add, Vector.new,
    Vector.origin, List.foldl]
  constructor
  · split <;> [omega; skip]
    split <;> omega
  constructor
  · split <;> [omega; skip]
    split <;> omega
  constructor
  · split <;> [omega; skip]
    split <;> omega
  · split <;> [omega; skip]
    split <;> omega

/-- C1 counterexample: the clamp in GameObject.move does not use the size of
the entity itself.  The full-canvas background rectangle in a 400 by 400 world,
moved by (20, 0), ends at x = 20, violating the claimed bound
x ≤ worldWidth - width = 0.  Moreover, in a world smaller than units the clamp
can leave x negative, so the amended bound needs the world to be at least units
wide and tall. -/
theorem C1_own_size_clamp_counterexample :
    ¬ ((GameObject.move ⟨400, 400⟩ (background ⟨400, 400⟩).pos ⟨20, 0⟩).x ≤
        (400 : Int) - (background ⟨400, 400⟩).width) ∧
      (GameObject.move ⟨10, 10⟩ ⟨0, 0⟩ ⟨5, 0⟩).x < 0 := by
  decide

/-- C1 amended: for every entity and every displacement vector, after
GameObject.move the position satisfies 0 ≤ x ≤ worldWidth - units and
0 ≤ y ≤ worldHeight - units, where units is the global step constant (not the
size of the entity itself), provided the world dimensions are at least units. -/
theorem C1_clamp_amended : ∀ (canvas : Canvas),
    units ≤ canvas.width → units ≤ canvas.height →
    ∀ (pos : Position) (vector : Vector),
    0 ≤ (GameObject.move canvas pos vector).x ∧
      (GameObject.move canvas pos vector).x ≤ canvas.width - units ∧
      0 ≤ (GameObject.move canvas pos vector).y ∧
      (GameObject.move canvas pos vector).y ≤ canvas.height - units :=
  fun canvas hw hh pos vector => move_bounds canvas pos vector hw hh

/-- C1 amended, witness at the 400 by 400 world of the worked examples. -/
theorem C1_clamp_amended_witness :
    units ≤ (400 : Int) ∧ units ≤ (400 : Int) ∧
      (0 ≤ (GameObject.move ⟨400, 400⟩ ⟨100, 120⟩ ⟨20, 0⟩).x ∧
        (GameObject.move ⟨400, 400⟩ ⟨100, 120⟩ ⟨20, 0⟩).x ≤ (400 : Int) - units ∧
        0 ≤ (GameObject.move ⟨400, 400⟩ ⟨100, 120⟩ ⟨20, 0⟩).y ∧
        (GameObject.move ⟨400, 400⟩ ⟨100, 120⟩ ⟨20, 0⟩).y ≤ (400 : Int) - units) :=
  ⟨by decide, by decide,
    C1_clamp_amended ⟨400, 400⟩ (by decide) (by decide) ⟨100, 120⟩ ⟨20, 0⟩⟩

/-- C2: the worked examples hold for the GameObject.move method the class
defines (from (100, 120), ArrowRight yields (120, 120); at x = 380 a further
ArrowRight saturates; at (0, 0) ArrowLeft clamps), but the actual dispatch goes
through the reassigned player.move, which throws a TypeError (its `this` is not
the player) or does nothing, so the position of the player stays (100, 120). -/
theorem C2_examples_eval :
    keydownHandler (GameObject.move ⟨400, 400⟩) "ArrowRight" player.pos =
        (⟨120, 120⟩ : Position) ∧
      keydownHandler (GameObject.move ⟨400, 400⟩) "ArrowRight" ⟨380, 120⟩ =
        (⟨380, 120⟩ : Position) ∧
      keydownHandler (GameObject.move ⟨400, 400⟩) "ArrowLeft" ⟨0, 0⟩ =
        (⟨0, 0⟩ : Position) ∧
      playerMoveOverride none player.pos (Vector.new units 0) =
        Except.error "TypeError" ∧
      playerMoveOverride (some player) player.pos (Vector.new units 0) =
        Except.ok player.pos :=
  ⟨by decide, by decide, by decide, rfl, rfl⟩

/-- C3: the function installed by the player.move reassignment never changes
the position: for every captured `this` (absent or any rectangle), every
current position and every vector, the call either throws a TypeError or
returns with the position unchanged; the boundary check body never runs. -/
theorem C3_override_noop : ∀ (moduleThis : Option Rectangle) (pos : Position)
    (vector : Vector),
    playerMoveOverride moduleThis pos vector = Except.error "TypeError" ∨
      playerMoveOverride moduleThis pos vector = Except.ok pos := by
  intro moduleThis pos vector
  cases moduleThis with
  | none => exact Or.inl rfl
  | some self => exact Or.inr (ite_self _)

/-- C4 counterexample: from the player position (100, 120), strictly inside the
400 by 400 boundary, moving left by 200 clamps at x = 0 and moving right by 200
then lands at (200, 120), not back at (100, 120). -/
theorem C4_left_right_counterexample :
    ((0 : Int) < 100 ∧ (100 : Int) < 400 - 20 ∧
        (0 : Int) < 120 ∧ (120 : Int) < 400 - 20) ∧
      GameObject.move ⟨400, 400⟩ (GameObject.move ⟨400, 400⟩ ⟨100, 120⟩ ⟨-200, 0⟩)
          ⟨200, 0⟩ ≠ (⟨100, 120⟩ : Position) := by
  decide

/-- C4 amended: from a position strictly inside the boundary, moving left by m
and then right by m through the clamped GameObject.move returns the entity to
its original position, provided the magnitude does not overshoot the left wall
(0 ≤ m ≤ x). -/
theorem C4_left_right_amended : ∀ (canvas : Canvas) (pos : Position) (m : Int),
    0 < pos.x → pos.x < canvas.width - units →
    0 < pos.y → pos.y < canvas.height - units →
    0 ≤ m → m ≤ pos.x →
    GameObject.move canvas (GameObject.move canvas pos ⟨-m, 0⟩) ⟨m, 0⟩ = pos := by
  intro canvas pos m hx0 hx1 hy0 hy1 hm0 hm1
  obtain ⟨px, py⟩ := pos
  simp only [GameObject.move, Position.move, Vector.plus, Vector.add, Vector.new,
    Vector.origin, List.foldl, Vector.mk.injEq] at *
  constructor <;> split_ifs <;> omega

/-- C4 amended, witness: the player at (100, 120) in the 400 by 400 world,
magnitude 20. -/
theorem C4_left_right_amended_witness :
    ((0 : Int) < 100 ∧ (100 : Int) < 400 - units ∧
        (0 : Int) < 120 ∧ (120 : Int) < 400 - units ∧
        (0 : Int) ≤ 20 ∧ (20 : Int) ≤ 100) ∧
      GameObject.move ⟨400, 400⟩ (GameObject.move ⟨400, 400⟩ ⟨100, 120⟩ ⟨-20, 0⟩)
          ⟨20, 0⟩ = (⟨100, 120⟩ : Position) :=
  ⟨⟨by decide, by decide, by decide, by decide, by decide, by decide⟩,
    C4_left_right_amended ⟨400, 400⟩ ⟨100, 120⟩ 20 (by decide) (by decide)
      (by decide) (by decide) (by decide) (by decide)⟩

/-- C5: Vector.add applied to no arguments returns the zero vector, and
Vector.add applied to a single vector returns a vector whose components equal
those of the argument. -/
theorem C5_add_identity :
    Vector.add [] = Vector.origin ∧ ∀ (v : Vector), Vector.add [v] = v := by
  refine ⟨rfl, fun v => ?_⟩
  obtain ⟨x, y⟩ := v
  simp [Vector.add, Vector.origin]

/-- C6: applying plus(a) and then plus(b) to a receiver yields the same final
value as the single application plus(a, b). -/
theorem C6_plus_assoc : ∀ (p a b : Vector),
    Vector.plus (Vector.plus p [a]) [b] = Vector.plus p [a, b] := by
  intro p a b
  obtain ⟨px, py⟩ := p
  simp only [Vector.plus, Vector.add, Vector.new, Vector.origin, List.foldl,
    Vector.mk.injEq]
  omega

/-- C7: each directional helper of Position equals move with the corresponding
axis vector, for every magnitude u including negative ones, and in particular
moveRight with a negated magnitude coincides with moveLeft. -/
theorem C7_helpers_def : ∀ (p : Position) (u : Int),
    Position.moveLeft p u = Position.move p ⟨-u, 0⟩ ∧
      Position.moveRight p u = Position.move p ⟨u, 0⟩ ∧
      Position.moveUp p u = Position.move p ⟨0, -u⟩ ∧
      Position.moveDown p u = Position.move p ⟨0, u⟩ ∧
      Position.moveRight p (-u) = Position.moveLeft p u :=
  fun p u => ⟨rfl, rfl, rfl, rfl, rfl⟩

/-- C8: a keydown event whose key is none of the four arrow keys matches no
case of the switch, and the handler changes no position and raises no error,
whatever move method is installed. -/
theorem C8_unrecognized_noop : ∀ (move : Position → Vector → Position)
    (key : String) (pos : Position),
    key ≠ "ArrowLeft" → key ≠ "ArrowUp" → key ≠ "ArrowDown" →
    key ≠ "ArrowRight" → keydownHandler move key pos = pos := by
  intro move key pos h1 h2 h3 h4
  simp [keydownHandler, h1, h2, h3, h4]

/-- C8 witness: the key KeyA is unrecognized and leaves the player position
unchanged. -/
theorem C8_unrecognized_noop_witness :
    keydownHandler (GameObject.move ⟨400, 400⟩) "KeyA" player.pos = player.pos :=
  C8_unrecognized_noop (GameObject.move ⟨400, 400⟩) "KeyA" player.pos
    (by decide) (by decide) (by decide) (by decide)

/-- C9 counterexample: a misconfigured world with width and height 0 is
accepted by module initialization without any error, and GameObject.move then
produces an inconsistent clamp: the position lands at x = -20, below the lower
bound (a negative clamp ceiling). -/
theorem C9_no_validation_counterexample :
    moduleInit 0 0 = Except.ok (0, 0, units) ∧
      (GameObject.move ⟨0, 0⟩ ⟨0, 0⟩ ⟨0, 0⟩).x < 0 :=
  ⟨rfl, by decide⟩

/-- C9 amended: the code performs no startup validation: module initialization
accepts every pair of world dimensions without error, and whenever the world
width is non-positive, any move whose target x is non-negative is clamped to
the negative ceiling worldWidth - units, leaving x out of range. -/
theorem C9_no_validation_amended : ∀ (w h : Int),
    moduleInit w h = Except.ok (w, h, units) ∧
      (w ≤ 0 → ∀ (pos : Position) (vector : Vector),
        0 ≤ pos.x + vector.x → (GameObject.move ⟨w, h⟩ pos vector).x < 0) := by
  intro w h
  refine ⟨rfl, fun hw pos vector hx => ?_⟩
  simp only [GameObject.move, Position.move, Vector.plus, Vector.add, Vector.new,
    Vector.origin, List.foldl, units]
  split_ifs <;> omega

/-- C9 amended, witness at world dimensions (0, 0) and a stationary move. -/
theorem C9_no_validation_amended_witness :
    (GameObject.move ⟨0, 0⟩ ⟨0, 0⟩ ⟨0, 0⟩).x < 0 :=
  (C9_no_validation_amended 0 0).2 (by decide) ⟨0, 0⟩ ⟨0, 0⟩ (by decide)

/-- C10: GameObject.move clamps with the global units constant rather than the
size of the entity: for every rectangle, whatever its width and height, the
moved position lies in [0, canvasWidth - units] and [0, canvasHeight - units]
(given a world at least units wide and tall), and the full-canvas background is
not kept within the bound its own width would give. -/
theorem C10_units_clamp :
    (∀ (canvas : Canvas) (r : Rectangle) (vector : Vector),
      units ≤ canvas.width → units ≤ canvas.height →
      0 ≤ (GameObject.move canvas r.pos vector).x ∧
        (GameObject.move canvas r.pos vector).x ≤ canvas.width - units ∧
        0 ≤ (GameObject.move canvas r.pos vector).y ∧
        (GameObject.move canvas r.pos vector).y ≤ canvas.height - units) ∧
      ¬ ((GameObject.move ⟨400, 400⟩ (background ⟨400, 400⟩).pos ⟨20, 0⟩).x ≤
        (400 : Int) - (background ⟨400, 400⟩).width) := by
  refine ⟨fun canvas r vector hw hh => move_bounds canvas r.pos vector hw hh, ?_⟩
  decide

/-- C10 witness: the bounds instantiated at the player in the 400 by 400
world. -/
theorem C10_units_clamp_witness :
    0 ≤ (GameObject.move ⟨400, 400⟩ player.pos ⟨20, 0⟩).x ∧
      (GameObject.move ⟨400, 400⟩ player.pos ⟨20, 0⟩).x ≤ (400 : Int) - units ∧
      0 ≤ (GameObject.move ⟨400, 400⟩ player.pos ⟨20, 0⟩).y ∧
      (GameObject.move ⟨400, 400⟩ player.pos ⟨20, 0⟩).y ≤ (400 : Int) - units :=
  C10_units_clamp.1 ⟨400, 400⟩ player ⟨20, 0⟩ (by decide) (by decide)

end Orbox
